import Mathlib

/-!
Verification of the GitHubConsolidationTool orchestrator (src/Orchestrator.py)
against its natural-language specification.

The Python source is shallowly embedded: pure decision logic becomes Lean
functions over explicit data, and every network or process effect (HTTP
probes, the Render API, git, the completion agent) is a parameter supplying
the observed outcome of that effect.  Strings are Lean `String`s, with the
Python operations (lower, strip, slicing, substring test, capitalize)
reimplemented character-by-character.
-/

namespace Orch

/-! ## String helpers mirroring the Python string operations -/

/-- Python `s.lower()` restricted to ASCII, which is all the source compares. -/
def toLowerStr (s : String) : String :=
  String.mk (s.toList.map Char.toLower)

/-- Python `s.capitalize()`: first character upper-cased, the rest lower-cased. -/
def capitalize (s : String) : String :=
  match s.toList with
  | [] => ""
  | c :: cs => String.mk (c.toUpper :: cs.map Char.toLower)

/-- Python `s[:n]`. -/
def strTake (s : String) (n : Nat) : String :=
  String.mk (s.toList.take n)

/-- The whitespace set of Python `str.strip()` (ASCII part). -/
def pySpace (c : Char) : Bool :=
  c == ' ' || c == '\t' || c == '\n' || c == '\r' || c == '\x0b' || c == '\x0c'

/-- Python `s.strip()`: leading and trailing whitespace removed. -/
def pyStrip (s : String) : String :=
  String.mk (((s.toList.dropWhile pySpace).reverse.dropWhile pySpace).reverse)

/-- Does the first list occur at the head of the second one? -/
def listStarts : List Char → List Char → Bool
  | [], _ => true
  | _ :: _, [] => false
  | a :: as, b :: bs => a == b && listStarts as bs

/-- Does the first list occur anywhere inside the second one? -/
def listHas (needle : List Char) : List Char → Bool
  | [] => needle.isEmpty
  | c :: rest => listStarts needle (c :: rest) || listHas needle rest

/-- Python `needle in hay` on strings. -/
def strContains (hay needle : String) : Bool :=
  listHas needle.toList hay.toList

/-- Python `s.startswith(pre)`. -/
def strStarts (s pre : String) : Bool :=
  listStarts pre.toList s.toList

/-- Python `s.endswith(suf)`. -/
def strEnds (s suf : String) : Bool :=
  listStarts suf.toList.reverse s.toList.reverse

/-- Python `list(dict.fromkeys(l))`: deduplicate preserving first occurrence. -/
def dedupeAux (seen : List String) : List String → List String
  | [] => []
  | x :: xs => if seen.contains x then dedupeAux seen xs
               else x :: dedupeAux (x :: seen) xs

/-- Deduplicate a list of strings preserving first-occurrence order. -/
def dedupe (l : List String) : List String :=
  dedupeAux [] l

/-! ## Data model (the Project dataclass and manifest) -/

/-- One manifest record per repository, mirroring the `Project` dataclass.
The status is kept as the string stored in the manifest JSON. -/
structure Project where
  name : String := ""
  github_url : String := ""
  description : String := ""
  language : String := ""
  is_fork : Bool := false
  status : String := "pending"
  deploy_url : String := ""
  render_service_id : String := ""
  tech_stack : List String := []
  category : String := ""
  skip_reason : String := ""
  error : String := ""
  completed_at : String := ""
  gif_url : String := ""
  existing_deploy_urls : List String := []
deriving DecidableEq, Repr

/-- Repository metadata as returned by the repository listing API. -/
structure Repo where
  name : String := ""
  html_url : String := ""
  clone_url : String := ""
  description : String := ""
  language : String := ""
  fork : Bool := false
  archived : Bool := false
  size : Nat := 0
  homepage : String := ""
deriving DecidableEq, Repr

/-- One entry of the git tree listing: a path and a type tag. -/
structure TreeItem where
  path : String
  type : String
deriving DecidableEq, Repr

/-! ## Run-start reset pass (reset_manifest_for_retry) -/

/-- The status test of the reset pass: these five statuses are reset. -/
def resettable (status : String) : Bool :=
  status == "failed" || status == "pending" || status == "skipped" ||
  status == "analysing" || status == "completed"

/-- The per-entry action of reset_manifest_for_retry. -/
def resetEntry (p : Project) : Project :=
  if resettable p.status then
    { p with status := "pending", error := "", skip_reason := "" }
  else p

/-- reset_manifest_for_retry: the run-start pass over the projects map,
modelled as an association list from repository name to record. -/
def reset_manifest_for_retry (m : List (String × Project)) : List (String × Project) :=
  m.map (fun e => (e.1, resetEntry e.2))

/-! ## Liveness probe -/

/-- The error-signal substrings of check_url_live. -/
def error_signals : List String :=
  ["404", "not found", "page not found", "site not found",
   "suspended", "there isn\u0027t a github pages site",
   "this page could not be found", "404.html"]

/-- check_url_live on an observed HTTP response: status code and full body
text.  A request that raised is represented by the caller as not-live and
never reaches this predicate, exactly as in the source. -/
def check_url_live (status : Nat) (text : String) : Bool :=
  if 400 ≤ status then false
  else if (pyStrip (toLowerStr (strTake text 2000))).length < 100 then false
  else if error_signals.any (fun sig => strContains (toLowerStr (strTake text 2000)) sig) then false
  else true

/-- Modelled from the spec (section 4.2): a candidate is live iff the HTTP
status is below 400, the case-folded first-2000-character body prefix has
non-whitespace length at least 100 (counting only non-whitespace characters),
and no error-signal substring occurs in that prefix.  Stated only to compare
with `check_url_live`, which is translated from the source. -/
def spec_live (status : Nat) (text : String) : Bool :=
  decide (status < 400) &&
  decide (100 ≤ ((toLowerStr (strTake text 2000)).toList.filter (fun c => !pySpace c)).length) &&
  !(error_signals.any (fun sig => strContains (toLowerStr (strTake text 2000)) sig))

/-- A character the URL regex of get_candidate_urls accepts after the scheme:
anything but whitespace, angle brackets and a double quote. -/
def urlChar (c : Char) : Bool :=
  !(pySpace c || c == '<' || c == '>' || c == '\"')

/-- Fuel-indexed scanner for the URL regex of the source (https or http
scheme, then one or more characters outside whitespace/angle-bracket/quote):
at each position try to match a scheme followed by a maximal nonempty run of
URL characters, and continue after the match (non-overlapping, left to
right).  The fuel is the length of the scanned text. -/
def findUrlsFuel : Nat → List Char → List String
  | 0, _ => []
  | _ + 1, [] => []
  | fuel + 1, c :: rest =>
    if listStarts "https://".toList (c :: rest) then
      let after := (c :: rest).drop 8
      let body := after.takeWhile urlChar
      if body.isEmpty then findUrlsFuel fuel rest
      else String.mk ("https://".toList ++ body) :: findUrlsFuel fuel (after.dropWhile urlChar)
    else if listStarts "http://".toList (c :: rest) then
      let after := (c :: rest).drop 7
      let body := after.takeWhile urlChar
      if body.isEmpty then findUrlsFuel fuel rest
      else String.mk ("http://".toList ++ body) :: findUrlsFuel fuel (after.dropWhile urlChar)
    else findUrlsFuel fuel rest

/-- All absolute URLs found inside a description text. -/
def findUrls (s : String) : List String :=
  findUrlsFuel s.toList.length s.toList

/-- get_candidate_urls: pages-style guesses, provider name-pattern guesses,
the homepage field when it is an absolute URL, and every URL found in the
description, deduplicated preserving first occurrence. -/
def get_candidate_urls (usernameRaw : String) (repo : Repo) : List String :=
  let name := repo.name
  let username := toLowerStr usernameRaw
  let base :=
    ["https://" ++ username ++ ".github.io/" ++ name ++ "/",
     "https://" ++ username ++ ".github.io/" ++ name,
     "https://mh-" ++ strTake name 30 ++ ".onrender.com",
     "https://" ++ name ++ ".onrender.com"]
  let withHome :=
    base ++ (if repo.homepage != "" && strStarts repo.homepage "http"
             then [repo.homepage] else [])
  dedupe (withHome ++ findUrls repo.description)

/-- The candidate loop of find_existing_deployment, instrumented with the
list of candidates actually queried: probe each URL in order against the
liveness oracle, returning on the first live one. -/
def probeList (live : String → Bool) : List String → (Bool × String) × List String
  | [] => ((false, ""), [])
  | u :: rest =>
    if live u then ((true, u), [u])
    else
      let r := probeList live rest
      (r.1, u :: r.2)

/-- find_existing_deployment: result of probing the candidate URLs. -/
def find_existing_deployment (live : String → Bool) (username : String) (repo : Repo) :
    Bool × String :=
  (probeList live (get_candidate_urls username repo)).1

/-! ## Classifier (classify_repo_from_api) -/

/-- The lower-cased blob paths of the fetched git tree.  `none` models any
failed fetch (exception or non-200 status), which leaves the file set empty
in the source. -/
def filesOfTree : Option (List TreeItem) → List String
  | none => []
  | some t => dedupe ((t.filter (fun i => i.type == "blob")).map (fun i => toLowerStr i.path))

/-- The file-listing signals computed at the top of classify_repo_from_api. -/
structure Signals where
  language : String
  has_index_html : Bool
  has_package_json : Bool
  has_requirements : Bool
  has_dockerfile : Bool
  has_render_yaml : Bool
  has_readme : Bool
  has_html_files : Bool
  has_js_files : Bool
  has_py_files : Bool
  has_cs_files : Bool
  has_react : Bool
  has_server : Bool
  has_css : Bool
  file_count : Nat
deriving DecidableEq, Repr

/-- Derive every signal from the repository metadata and the tree fetch. -/
def signalsOf (repo : Repo) (tree : Option (List TreeItem)) : Signals :=
  let files := filesOfTree tree
  { language := toLowerStr repo.language
  , has_index_html := files.any (fun f => strEnds f "index.html")
  , has_package_json := files.contains "package.json"
  , has_requirements := files.contains "requirements.txt"
  , has_dockerfile := files.contains "dockerfile" || files.contains "Dockerfile"
  , has_render_yaml := files.contains "render.yaml"
  , has_readme := files.contains "readme.md" || files.contains "README.md"
  , has_html_files := files.any (fun f => strEnds f ".html")
  , has_js_files := files.any (fun f =>
      strEnds f ".js" || strEnds f ".jsx" || strEnds f ".ts" || strEnds f ".tsx")
  , has_py_files := files.any (fun f => strEnds f ".py")
  , has_cs_files := files.any (fun f => strEnds f ".cs" || strEnds f ".csproj")
  , has_react := files.any (fun f => strContains f "react") ||
      files.any (fun f => strEnds f ".jsx" || strEnds f ".tsx")
  , has_server := ["server.js", "app.js", "index.js", "server.py", "app.py", "main.py"].any
      (fun n => files.contains n)
  , has_css := files.any (fun f => strEnds f ".css")
  , file_count := files.length }

/-- The deploy-type decision chain. -/
def deployTypeOf (s : Signals) : String :=
  if s.has_cs_files then "docker"
  else if s.has_py_files && s.has_server then "python"
  else if s.has_package_json && s.has_server then "node"
  else if s.has_package_json && s.has_react then "node"
  else if s.has_html_files || s.has_index_html then "static"
  else if s.has_package_json then "node"
  else if s.has_py_files then "python"
  else "static"

/-- The category decision chain. -/
def categoryOf (s : Signals) : String :=
  if s.has_react || (s.has_package_json && s.has_server) then "web-app"
  else if s.has_server && !s.has_html_files then "api"
  else if s.has_html_files && !s.has_package_json then "static-site"
  else if s.has_py_files && !s.has_html_files then "cli-tool"
  else if s.has_cs_files then "api"
  else if s.language == "html" || s.language == "css" || s.language == "javascript" then "static-site"
  else "other"

/-- The tech-stack list: file-evidence tags in fixed order, then the declared
language inserted at the front when the membership test passes.  The test
compares the capitalized language against the lower-cased tags, exactly as
the source writes it. -/
def techStackOf (s : Signals) : List String :=
  let ts :=
    (if s.has_html_files then ["HTML"] else []) ++
    (if s.has_css then ["CSS"] else []) ++
    (if s.has_js_files then ["JavaScript"] else []) ++
    (if s.has_react then ["React"] else []) ++
    (if s.has_py_files then ["Python"] else []) ++
    (if s.has_cs_files then ["C#"] else [])
  if s.language != "" && !((ts.map toLowerStr).contains (capitalize s.language))
  then capitalize s.language :: ts
  else ts

/-- The tier decision chain, first match wins. -/
def tierOf (s : Signals) : Nat :=
  if decide (s.file_count ≤ 2) then 2
  else if (deployTypeOf s == "static") && s.has_index_html && !s.has_package_json then 0
  else if (deployTypeOf s == "static") && s.has_html_files && !s.has_package_json then 0
  else if s.has_render_yaml && s.has_readme && s.has_package_json then 1
  else if s.has_cs_files || s.has_dockerfile then 2
  else if s.has_package_json && !s.has_server && !s.has_react then 2
  else 1

/-- First-match evaluation of an ordered rule list: the value of the first
rule whose condition holds, else the default. -/
def firstMatch : List (Bool × Nat) → Nat → Nat
  | [], d => d
  | (c, v) :: rest, d => if c then v else firstMatch rest d

/-- The seven tier rules in the exact precedence order the spec states them
(rule 7 is the default of `firstMatch`). -/
def tier_rules (s : Signals) : List (Bool × Nat) :=
  [ (decide (s.file_count ≤ 2), 2)
  , ((deployTypeOf s == "static") && s.has_index_html && !s.has_package_json, 0)
  , ((deployTypeOf s == "static") && s.has_html_files && !s.has_package_json, 0)
  , (s.has_render_yaml && s.has_readme && s.has_package_json, 1)
  , (s.has_cs_files || s.has_dockerfile, 2)
  , (s.has_package_json && !s.has_server && !s.has_react, 2) ]

/-- The tier decision as the spec words it: the ordered rule list evaluated
first-match-wins. -/
def spec_tier (s : Signals) : Nat :=
  firstMatch (tier_rules s) 1

/-- The dictionary classify_repo_from_api returns. -/
structure Classification where
  tier : Nat
  deploy_type : String
  category : String
  tech_stack : List String
  has_index_html : Bool
  has_package_json : Bool
  has_readme : Bool
  has_render_yaml : Bool
  has_server : Bool
  file_count : Nat
deriving DecidableEq, Repr

/-- classify_repo_from_api on the observed tree-fetch outcome. -/
def classify_repo_from_api (repo : Repo) (tree : Option (List TreeItem)) : Classification :=
  let s := signalsOf repo tree
  { tier := tierOf s
  , deploy_type := deployTypeOf s
  , category := categoryOf s
  , tech_stack := techStackOf s
  , has_index_html := s.has_index_html
  , has_package_json := s.has_package_json
  , has_readme := s.has_readme
  , has_render_yaml := s.has_render_yaml
  , has_server := s.has_server
  , file_count := s.file_count }

/-! ## Deployment client (deploy_to_render) -/

/-- One observed outcome of the POST to the provider: a response with status
and body, or a raised exception with its message. -/
inductive RenderResp where
  | ok (status : Nat) (body : String)
  | exn (msg : String)
deriving DecidableEq, Repr

/-- The deterministic service name: provider prefix plus the repository name
truncated to 30 characters. -/
def serviceNameOf (pname : String) : String :=
  "mh-" ++ strTake pname 30

/-- The deterministic URL derived from the service name. -/
def serviceUrlOf (pname : String) : String :=
  "https://" ++ serviceNameOf pname ++ ".onrender.com"

/-- The bounded submission loop of deploy_to_render: up to `fuel` attempts,
each reading the response for the current attempt index; 200/201 succeeds,
429 waits 30 times the one-based attempt number and retries, anything else
returns the status and the body truncated to 500 characters.  Also returns
the list of backoff waits performed. -/
def renderLoopAux (responses : Nat → RenderResp) (pname : String) :
    Nat → Nat → List Nat → (Option String × String) × List Nat
  | 0, _, waits => ((none, "Rate limit exceeded after retries"), waits)
  | fuel + 1, attempt, waits =>
    match responses attempt with
    | .exn m => ((none, m), waits)
    | .ok st body =>
      if st = 200 ∨ st = 201 then ((some (serviceUrlOf pname), ""), waits)
      else if st = 429 then
        renderLoopAux responses pname fuel (attempt + 1) (waits ++ [30 * (attempt + 1)])
      else ((none, "Render API " ++ Nat.repr st ++ ": " ++ strTake body 500), waits)

/-- deploy_to_render: missing API key and dry-run short circuits, then the
three-attempt submission loop. -/
def deploy_to_render (hasKey dryRun : Bool) (pname : String) (responses : Nat → RenderResp) :
    (Option String × String) × List Nat :=
  if !hasKey then ((none, "No RENDER_API_KEY set"), [])
  else if dryRun then ((some (serviceUrlOf pname), ""), [])
  else renderLoopAux responses pname 3 0 []

/-! ## Retry coordinator (deploy_with_retry) -/

/-- Python truthiness of an optional string: present and nonempty. -/
def pyTruthy : Option String → Bool
  | none => false
  | some s => s != ""

/-- The self-healing loop body, fuel-indexed by the remaining attempts.
`deployRes` is the observed outcome of the deployment call on each one-based
attempt, `agentOk` the observed result of the fix-prompt agent invocation.
The second component collects the error text of every fix prompt actually
issued to the agent. -/
def dwrAux (deployRes : Nat → Option String × String) (agentOk : Nat → Bool)
    (maxRetries : Nat) : Nat → Nat → Option String × List String
  | 0, _ => (none, [])
  | fuel + 1, attempt =>
    if pyTruthy (deployRes attempt).1 then ((deployRes attempt).1, [])
    else if (deployRes attempt).2 == "" || decide (maxRetries ≤ attempt) then (none, [])
    else if strContains (toLowerStr (deployRes attempt).2) "rate limit" ||
            strContains (deployRes attempt).2 "Rate limit" then
      (none, [])
    else if agentOk attempt then
      ((dwrAux deployRes agentOk maxRetries fuel (attempt + 1)).1,
       (deployRes attempt).2 :: (dwrAux deployRes agentOk maxRetries fuel (attempt + 1)).2)
    else (none, [(deployRes attempt).2])

/-- deploy_with_retry: at most `maxRetries` deployment attempts starting at
attempt 1, with the list of error texts handed to the completion agent. -/
def deploy_with_retry (deployRes : Nat → Option String × String) (agentOk : Nat → Bool)
    (maxRetries : Nat := 2) : Option String × List String :=
  dwrAux deployRes agentOk maxRetries maxRetries 1

/-! ## Orchestrator (should_skip_repo, process_repo) -/

/-- The fixed deny-list of repository names. -/
def SKIP_REPOS : List String := ["mathew-harvey", ".github"]

/-- should_skip_repo: deny-list, fork, archived, zero size — in that order. -/
def should_skip_repo (repo : Repo) : Bool × String :=
  if SKIP_REPOS.contains (toLowerStr repo.name) then (true, "In skip list")
  else if repo.fork then (true, "Fork")
  else if repo.archived then (true, "Archived")
  else if repo.size == 0 then (true, "Empty repo")
  else (false, "")

/-- Every external observation process_repo consumes, plus the relevant
configuration: the liveness oracle for candidate URLs, the tree-fetch
outcome, the clone result, the completion-agent result, and the per-attempt
deployment outcomes for the retry coordinator. -/
structure Env where
  username : String
  skip_existing : Bool
  dry_run : Bool
  live : String → Bool
  tree : Option (List TreeItem)
  clone_ok : Bool
  clone_err : String
  completion_ok : Bool
  deployRes : Nat → Option String × String
  agentOk : Nat → Bool
  now : String

/-- The fresh Project record built at the top of process_repo. -/
def baseProject (repo : Repo) : Project :=
  { name := repo.name
  , github_url := repo.html_url
  , description := repo.description
  , language := repo.language
  , is_fork := repo.fork }

/-- Python `classification["tech_stack"] or ([language] if language else [])`. -/
def stackOr (c : Classification) (repo : Repo) : List String :=
  if c.tech_stack.isEmpty then (if repo.language == "" then [] else [repo.language])
  else c.tech_stack

/-- Python `if not project.description: project.description = repo.description or name`. -/
def descOr (p : Project) (repo : Repo) : String :=
  if p.description == "" then (if repo.description == "" then repo.name else repo.description)
  else p.description

/-- Phases 3½–4 of process_repo after a successful completion step: push,
mark completed, run the retry coordinator, and promote to deployed exactly
when the returned URL is truthy.  The trace lists the side-effecting phases
performed. -/
def pushDeploy (env : Env) (p1 : Project) (trace : List String) : Project × List String :=
  let p2 := { p1 with status := "completed" }
  let d := (deploy_with_retry env.deployRes env.agentOk 2).1
  let outTrace := trace ++ ["push", "deploy"]
  if pyTruthy d then
    ({ p2 with status := "deployed", deploy_url := d.getD "", completed_at := env.now }, outTrace)
  else
    ({ p2 with completed_at := env.now }, outTrace)

/-- Phase 3 of process_repo after a successful clone: tier-0 quick fix or the
tiered agent completion, then push and deploy. -/
def afterClone (env : Env) (p1 : Project) (tier : Nat) : Project × List String :=
  if tier == 0 then
    pushDeploy env p1 ["clone", "quick_fix"]
  else if env.completion_ok then
    pushDeploy env p1 ["clone", "agent"]
  else
    ({ p1 with status := "failed", error := "Completion failed" }, ["clone", "agent"])

/-- The body of process_repo past the skip-existing short circuit. -/
def process_repo_fresh (env : Env) (repo : Repo) : Project × List String :=
  let p0 := baseProject repo
  if (should_skip_repo repo).1 then
    ({ p0 with status := "skipped", skip_reason := (should_skip_repo repo).2 }, [])
  else
    let probe := (probeList env.live (get_candidate_urls env.username repo)).1
    let c := classify_repo_from_api repo env.tree
    if probe.1 then
      ({ p0 with
          status := "already-live",
          deploy_url := probe.2,
          completed_at := env.now,
          tech_stack := stackOr c repo,
          category := if c.category == "" then "web-app" else c.category,
          description := descOr p0 repo }, [])
    else
      let p1 := { p0 with
          tech_stack := stackOr c repo,
          category := if c.category == "" then "other" else c.category,
          description := descOr p0 repo }
      if decide (c.file_count ≤ 1) then
        ({ p1 with status := "skipped", skip_reason := "Empty or README-only repo" }, [])
      else if env.dry_run then
        ({ p1 with status := "completed", completed_at := env.now }, [])
      else if env.clone_ok then
        afterClone env p1 c.tier
      else
        ({ p1 with status := "failed", error := "Clone failed: " ++ env.clone_err }, ["clone"])

/-- Dictionary lookup in the projects map. -/
def lookupProj (m : List (String × Project)) (name : String) : Option Project :=
  match m.find? (fun e => e.1 == name) with
  | some e => some e.2
  | none => none

/-- The skip-existing short circuit at the top of process_repo: the cached
record, when skip-existing is enabled, the name is in the ledger and its
status is one of the two sticky final states. -/
def cachedRecord (env : Env) (repo : Repo) (manifest : List (String × Project)) :
    Option Project :=
  if env.skip_existing then
    match lookupProj manifest repo.name with
    | some p =>
      if p.status == "deployed" || p.status == "already-live" then some p else none
    | none => none
  else none

/-- process_repo: the per-repository state machine, returning the record
written to the manifest and the trace of side-effecting phases performed. -/
def process_repo (env : Env) (repo : Repo) (manifest : List (String × Project)) :
    Project × List String :=
  match cachedRecord env repo manifest with
  | some p => (p, [])
  | none => process_repo_fresh env repo

/-- The record invariant of the spec (section 3): success states carry a
deploy URL, skipped records a reason, failed records an error. -/
def RecordInv (p : Project) : Prop :=
  ((p.status = "deployed" ∨ p.status = "already-live") → p.deploy_url ≠ "") ∧
  (p.status = "skipped" → p.skip_reason ≠ "") ∧
  (p.status = "failed" → p.error ≠ "")

/-! ## Concrete instances used by witnesses and counterexamples -/

/-- A body whose trimmed length passes the check of the source but whose
non-whitespace character count does not: one letter, 120 spaces, one letter. -/
def c3body : String := "a" ++ String.mk (List.replicate 120 ' ') ++ "a"

/-- A manifest record in the failed state. -/
def pC1fail : Project :=
  { name := "alpha", status := "failed", error := "Clone failed: timeout" }

/-- A manifest record in the deployed state. -/
def pC1dep : Project :=
  { name := "beta", status := "deployed", deploy_url := "https://mh-beta.onrender.com" }

/-- A two-entry manifest exercising both sides of the reset pass. -/
def mC1 : List (String × Project) := [("alpha", pC1fail), ("beta", pC1dep)]

/-- A two-file repository tree: near-empty yet carrying tier-0 signals. -/
def treeC2 : Option (List TreeItem) :=
  some [{ path := "index.html", type := "blob" }, { path := "Dockerfile", type := "blob" }]

/-- A small repository. -/
def repoC2 : Repo := { name := "tiny", html_url := "https://github.com/u/tiny", size := 3 }

/-- A baseline environment: every oracle negative, no tree, nothing cached. -/
def envBase : Env :=
  { username := "Mathew-Harvey"
  , skip_existing := true
  , dry_run := false
  , live := fun _ => false
  , tree := none
  , clone_ok := true
  , clone_err := ""
  , completion_ok := true
  , deployRes := fun _ => (none, "")
  , agentOk := fun _ => false
  , now := "2026-01-01T00:00:00" }

/-- A deny-listed repository (the profile configuration repository). -/
def repoC4 : Repo := { name := ".github", html_url := "https://github.com/u/.github", size := 7 }

/-- The cached deployed record for the deny-listed repository. -/
def recC4 : Project :=
  { name := ".github", status := "deployed", deploy_url := "https://mh-.github.onrender.com" }

/-- A manifest recording the deny-listed repository as deployed. -/
def mC4 : List (String × Project) := [(".github", recC4)]

/-- Deployment outcomes: a configuration error on attempt 1, success after. -/
def dres5 : Nat → Option String × String :=
  fun n => if n = 1 then (none, "Render API 400: missing serviceDetails")
           else (some "https://mh-x.onrender.com", "")

/-- A fork repository, exercising the explicit skip path. -/
def repoC6 : Repo := { name := "somefork", fork := true, size := 10 }

/-- The repository used by the probe short-circuit witness. -/
def repoC8 : Repo := { name := "demo", size := 4 }

/-- A liveness oracle under which the first candidate of repoC8 is live. -/
def liveC8 : String → Bool := fun u => u == "https://mathew-harvey.github.io/demo/"

/-- A repository whose declared language is Python and whose tree holds a
Python file, so the language tag is already represented by file evidence. -/
def repoC9 : Repo := { name := "pytool", language := "Python", size := 5 }

/-- The tree of repoC9: a single Python source file. -/
def treeC9 : Option (List TreeItem) := some [{ path := "main.py", type := "blob" }]

/-- A repository that passes every explicit skip check. -/
def repoC10 : Repo := { name := "netfail", html_url := "https://github.com/u/netfail", size := 42 }

/-! ## Helper lemmas -/

theorem mem_dedupeAux {u : String} :
    ∀ (l seen : List String), u ∈ dedupeAux seen l → u ∈ l := by
  intro l
  induction l with
  | nil => intro seen h; simp [dedupeAux] at h
  | cons x xs ih =>
    intro seen h
    simp only [dedupeAux] at h
    split at h
    · exact List.mem_cons_of_mem _ (ih _ h)
    · rcases List.mem_cons.mp h with h | h
      · exact h ▸ List.mem_cons_self x xs
      · exact List.mem_cons_of_mem _ (ih _ h)

theorem mem_dedupe {u : String} {l : List String} (h : u ∈ dedupe l) : u ∈ l :=
  mem_dedupeAux l [] h

theorem str_append_ne (a b : String) (h : a ≠ "") : a ++ b ≠ "" := by
  intro hab
  have hd := congrArg String.data hab
  rw [String.data_append] at hd
  exact h (String.ext (List.append_eq_nil.mp hd).1)

theorem findUrlsFuel_ne_empty :
    ∀ (fuel : Nat) (cs : List Char) (u : String), u ∈ findUrlsFuel fuel cs → u ≠ "" := by
  intro fuel
  induction fuel with
  | zero => intro cs u h; simp [findUrlsFuel] at h
  | succ f ih =>
    intro cs u h
    cases cs with
    | nil => simp [findUrlsFuel] at h
    | cons c rest =>
      simp only [findUrlsFuel] at h
      split at h
      · split at h
        · exact ih _ _ h
        · rcases List.mem_cons.mp h with h | h
          · subst h
            intro he
            have hd := congrArg String.data he
            exact absurd (List.append_eq_nil.mp hd).1 (by decide)
          · exact ih _ _ h
      · split at h
        · split at h
          · exact ih _ _ h
          · rcases List.mem_cons.mp h with h | h
            · subst h
              intro he
              have hd := congrArg String.data he
              exact absurd (List.append_eq_nil.mp hd).1 (by decide)
            · exact ih _ _ h
        · exact ih _ _ h

theorem get_candidate_urls_ne_empty (username : String) (repo : Repo) :
    ∀ u ∈ get_candidate_urls username repo, u ≠ "" := by
  intro u hu
  simp only [get_candidate_urls] at hu
  have hu' := mem_dedupe hu
  rcases List.mem_append.mp hu' with hl | hr
  · rcases List.mem_append.mp hl with hb | hh
    · simp only [List.mem_cons, List.not_mem_nil, or_false] at hb
      rcases hb with h | h | h | h <;> subst h <;>
        (repeat apply str_append_ne) <;> decide
    · by_cases hg : (repo.homepage != "" && strStarts repo.homepage "http") = true
      · rw [if_pos hg] at hh
        simp only [List.mem_singleton] at hh
        subst hh
        rw [Bool.and_eq_true] at hg
        simpa using hg.1
      · rw [if_neg hg] at hh
        simp at hh
  · exact findUrlsFuel_ne_empty _ _ _ hr

theorem probeList_true_mem (live : String → Bool) :
    ∀ l : List String, (probeList live l).1.1 = true → (probeList live l).1.2 ∈ l := by
  intro l
  induction l with
  | nil => simp [probeList]
  | cons x xs ih =>
    by_cases hx : live x
    · simp [probeList, hx]
    · simp only [probeList, hx, Bool.false_eq_true, if_false]
      intro h
      exact List.mem_cons_of_mem _ (ih h)

theorem probeList_characterization (live : String → Bool) :
    ∀ l : List String,
      probeList live l =
        match l.dropWhile (fun u => !live u) with
        | [] => ((false, ""), l)
        | u :: _ => ((true, u), l.takeWhile (fun u => !live u) ++ [u]) := by
  intro l
  induction l with
  | nil => simp [probeList]
  | cons x xs ih =>
    by_cases hx : live x
    · simp [probeList, hx, List.dropWhile_cons, List.takeWhile_cons]
    · rcases hd : xs.dropWhile (fun u => !live u) with _ | ⟨u, rest⟩
      · simp [probeList, hx, List.dropWhile_cons, List.takeWhile_cons, ih, hd]
      · simp [probeList, hx, List.dropWhile_cons, List.takeWhile_cons, ih, hd]

theorem lookupProj_mem (m : List (String × Project)) (name : String) (p : Project)
    (h : lookupProj m name = some p) : ∃ n, (n, p) ∈ m := by
  unfold lookupProj at h
  rcases hf : m.find? (fun e => e.1 == name) with _ | e
  · rw [hf] at h; cases h
  · rw [hf] at h
    cases h
    exact ⟨e.1, by simpa using List.mem_of_find?_eq_some hf⟩

theorem cachedRecord_mem (env : Env) (repo : Repo) (m : List (String × Project)) (p : Project)
    (h : cachedRecord env repo m = some p) : ∃ n, (n, p) ∈ m := by
  unfold cachedRecord at h
  by_cases hse : env.skip_existing = true
  · rw [if_pos hse] at h
    rcases hl : lookupProj m repo.name with _ | q
    · simp only [hl] at h
      cases h
    · simp only [hl] at h
      by_cases hs : (q.status == "deployed" || q.status == "already-live") = true
      · rw [if_pos hs] at h
        injection h with h
        subst h
        exact lookupProj_mem m repo.name _ hl
      · rw [if_neg hs] at h
        cases h
  · rw [if_neg hse] at h
    cases h

theorem pyTruthy_getD {o : Option String} (h : pyTruthy o = true) : o.getD "" ≠ "" := by
  cases o with
  | none => simp [pyTruthy] at h
  | some s => simpa [pyTruthy] using h

/-! ## Claim C1 — the run-start reset pass -/

/-- C1: the reset pass sends every entry whose status is failed, pending,
skipped, analysing or completed to pending with error and skip reason
cleared, keeps it at the same key, and leaves every deployed or already-live
entry entirely unmodified. -/
theorem c1_reset_pass (m : List (String × Project)) (n : String) (p : Project)
    (h : (n, p) ∈ m) :
    (n, resetEntry p) ∈ reset_manifest_for_retry m ∧
    ((p.status = "failed" ∨ p.status = "pending" ∨ p.status = "skipped" ∨
      p.status = "analysing" ∨ p.status = "completed") →
      (resetEntry p).status = "pending" ∧ (resetEntry p).error = "" ∧
      (resetEntry p).skip_reason = "") ∧
    ((p.status = "deployed" ∨ p.status = "already-live") → resetEntry p = p) := by
  refine ⟨List.mem_map_of_mem _ h, ?_, ?_⟩
  · intro hs
    have hres : resettable p.status = true := by
      rcases hs with h | h | h | h | h <;> rw [h] <;> decide
    simp [resetEntry, hres]
  · intro hs
    have hres : resettable p.status = false := by
      rcases hs with h | h <;> rw [h] <;> decide
    simp [resetEntry, hres]

/-- Witness for C1 at a concrete two-entry manifest. -/
theorem c1_reset_pass_witness :
    ("alpha", pC1fail) ∈ mC1 ∧
    ((resetEntry pC1fail).status = "pending" ∧ (resetEntry pC1fail).error = "" ∧
     (resetEntry pC1fail).skip_reason = "") :=
  ⟨by decide, (c1_reset_pass mC1 "alpha" pC1fail (by decide)).2.1 (Or.inl rfl)⟩

/-! ## Claim C2 — tier precedence -/

/-- C2: the tier decision equals the first-match evaluation of the ordered
spec rule list, and in particular any classification whose file count is at
most 2 gets tier 2 regardless of every other signal. -/
theorem c2_tier_precedence (repo : Repo) (tree : Option (List TreeItem)) :
    (classify_repo_from_api repo tree).tier = spec_tier (signalsOf repo tree) ∧
    ((classify_repo_from_api repo tree).file_count ≤ 2 →
      (classify_repo_from_api repo tree).tier = 2) := by
  constructor
  · rfl
  · intro h
    have h' : (signalsOf repo tree).file_count ≤ 2 := h
    have hd : decide ((signalsOf repo tree).file_count ≤ 2) = true := decide_eq_true h'
    show tierOf (signalsOf repo tree) = 2
    simp [tierOf, hd]

/-- Witness for C2: a two-file tree carrying tier-0 and tier-2 signals. -/
theorem c2_tier_precedence_witness :
    (classify_repo_from_api repoC2 treeC2).file_count ≤ 2 ∧
    (classify_repo_from_api repoC2 treeC2).tier = 2 :=
  ⟨by decide, (c2_tier_precedence repoC2 treeC2).2 (by decide)⟩

/-! ## Claim C3 — the liveness criterion -/

set_option maxRecDepth 100000 in
/-- C3 counterexample: a 200 response whose body is one letter, 120 spaces
and one letter.  Its trimmed length is 122, so check_url_live accepts it,
but it holds only 2 non-whitespace characters, so the spec criterion (with
non-whitespace length at least 100) rejects it: the claimed equivalence
fails at this input. -/
theorem c3_live_counterexample :
    check_url_live 200 c3body = true ∧ spec_live 200 c3body = false := by
  constructor <;> decide

/-- C3 amended: a probed response is live iff the status is below 400, the
case-folded first-2000-character body prefix has length at least 100 after
stripping leading and trailing whitespace, and no error-signal substring
occurs in that prefix. -/
theorem c3_live_amended (status : Nat) (text : String) :
    check_url_live status text = true ↔
      (status < 400 ∧
       100 ≤ (pyStrip (toLowerStr (strTake text 2000))).length ∧
       error_signals.any (fun sig => strContains (toLowerStr (strTake text 2000)) sig) = false) := by
  unfold check_url_live
  split_ifs with h1 h2 h3
  · constructor
    · intro hF; exact absurd hF (by simp)
    · rintro ⟨ha, -, -⟩; omega
  · constructor
    · intro hF; exact absurd hF (by simp)
    · rintro ⟨-, hb, -⟩; omega
  · constructor
    · intro hF; exact absurd hF (by simp)
    · rintro ⟨-, -, hc⟩; rw [h3] at hc; exact absurd hc (by simp)
  · constructor
    · intro _
      refine ⟨by omega, by omega, ?_⟩
      simpa using h3
    · intro _; rfl

/-! ## Claim C5 — no self-healing on rate-limit errors -/

theorem dwrAux_rate_limit_free (deployRes : Nat → Option String × String)
    (agentOk : Nat → Bool) (maxRetries : Nat) :
    ∀ (fuel attempt : Nat) (e : String),
      e ∈ (dwrAux deployRes agentOk maxRetries fuel attempt).2 →
      strContains (toLowerStr e) "rate limit" = false := by
  intro fuel
  induction fuel with
  | zero => intro attempt e h; simp [dwrAux] at h
  | succ f ih =>
    intro attempt e h
    simp only [dwrAux] at h
    by_cases h1 : pyTruthy (deployRes attempt).1 = true
    · rw [if_pos h1] at h
      simp at h
    · rw [if_neg h1] at h
      by_cases h2 : ((deployRes attempt).2 == "" || decide (maxRetries ≤ attempt)) = true
      · rw [if_pos h2] at h
        simp at h
      · rw [if_neg h2] at h
        by_cases h3 : (strContains (toLowerStr (deployRes attempt).2) "rate limit" ||
                       strContains (deployRes attempt).2 "Rate limit") = true
        · rw [if_pos h3] at h
          simp at h
        · have h3f : (strContains (toLowerStr (deployRes attempt).2) "rate limit" ||
                      strContains (deployRes attempt).2 "Rate limit") = false :=
            Bool.eq_false_iff.mpr h3
          have h3' : strContains (toLowerStr (deployRes attempt).2) "rate limit" = false :=
            (Bool.or_eq_false_iff.mp h3f).1
          rw [if_neg h3] at h
          by_cases h4 : agentOk attempt = true
          · rw [if_pos h4] at h
            rcases List.mem_cons.mp h with h | h
            · subst h; exact h3'
            · exact ih _ _ h
          · rw [if_neg h4] at h
            have h' := List.mem_singleton.mp h
            subst h'; exact h3'

/-- C5: every error text actually handed to the completion agent by
deploy_with_retry is free of the rate-limit indicator: a failing attempt
whose error mentions a rate limit stops the loop before the fix prompt. -/
theorem c5_no_agent_on_rate_limit (deployRes : Nat → Option String × String)
    (agentOk : Nat → Bool) (maxRetries : Nat) (e : String)
    (h : e ∈ (deploy_with_retry deployRes agentOk maxRetries).2) :
    strContains (toLowerStr e) "rate limit" = false :=
  dwrAux_rate_limit_free deployRes agentOk maxRetries maxRetries 1 e h

/-- Witness for C5: a configuration error reaches the agent and carries no
rate-limit indicator. -/
theorem c5_no_agent_on_rate_limit_witness :
    "Render API 400: missing serviceDetails" ∈ (deploy_with_retry dres5 (fun _ => true) 2).2 ∧
    strContains (toLowerStr "Render API 400: missing serviceDetails") "rate limit" = false :=
  ⟨by decide, c5_no_agent_on_rate_limit dres5 (fun _ => true) 2 _ (by decide)⟩

/-! ## Claim C7 — deployment response classification -/

/-- C7 counterexample: a 202 response is a 2xx status, yet deploy_to_render
returns no URL and an error, refuting the any-2xx-succeeds classification:
only 200 and 201 are treated as success. -/
theorem c7_2xx_counterexample :
    deploy_to_render true false "demo" (fun _ => RenderResp.ok 202 "Accepted") =
      ((none, "Render API 202: Accepted"), []) := by
  rfl

/-- C7 amended: the first response is classified as success exactly on
status 200 or 201, returning the deterministic URL derived from the service
name; any other non-429 status returns no URL plus an error carrying the
status and the body truncated to 500 characters, with no further attempt;
three consecutive 429 responses back off 30, 60 and 90 seconds and then give
up with the rate-limit-exhaustion error. -/
theorem c7_response_classification (responses : Nat → RenderResp) (pname : String)
    (st : Nat) (body b1 b2 : String) (h0 : responses 0 = RenderResp.ok st body) :
    ((st = 200 ∨ st = 201) →
      deploy_to_render true false pname responses = ((some (serviceUrlOf pname), ""), [])) ∧
    (st ≠ 200 → st ≠ 201 → st ≠ 429 →
      deploy_to_render true false pname responses =
        ((none, "Render API " ++ Nat.repr st ++ ": " ++ strTake body 500), [])) ∧
    (st = 429 → responses 1 = RenderResp.ok 429 b1 → responses 2 = RenderResp.ok 429 b2 →
      deploy_to_render true false pname responses =
        ((none, "Rate limit exceeded after retries"), [30, 60, 90])) := by
  refine ⟨?_, ?_, ?_⟩
  · intro hs
    simp [deploy_to_render, renderLoopAux, h0, hs]
  · intro h200 h201 h429
    have hs : ¬(st = 200 ∨ st = 201) := by tauto
    simp [deploy_to_render, renderLoopAux, h0, hs, h429]
  · intro hs h1 h2
    subst hs
    simp [deploy_to_render, renderLoopAux, h0, h1, h2]

/-- Witness for C7 at a concrete 500 response. -/
theorem c7_response_classification_witness :
    deploy_to_render true false "w" (fun _ => RenderResp.ok 500 "oops") =
      ((none, "Render API 500: oops"), []) :=
  (c7_response_classification (fun _ => RenderResp.ok 500 "oops") "w" 500 "oops" "" "" rfl).2.1
    (by decide) (by decide) (by decide)

/-! ## Claim C8 — probe short-circuit -/

/-- C8: find_existing_deployment is the probe over the deduplicated
candidates; the probe returns the first live candidate with the queried list
stopping right there (candidates after the first live one are never
queried), and returns false with the empty URL, having queried everything,
when no candidate is live. -/
theorem c8_probe_short_circuit (live : String → Bool) (username : String) (repo : Repo) :
    find_existing_deployment live username repo =
      (probeList live (get_candidate_urls username repo)).1 ∧
    (∀ u rest, (get_candidate_urls username repo).dropWhile (fun x => !live x) = u :: rest →
      probeList live (get_candidate_urls username repo) =
        ((true, u), (get_candidate_urls username repo).takeWhile (fun x => !live x) ++ [u])) ∧
    ((get_candidate_urls username repo).dropWhile (fun x => !live x) = [] →
      probeList live (get_candidate_urls username repo) =
        ((false, ""), get_candidate_urls username repo)) := by
  refine ⟨rfl, ?_, ?_⟩
  · intro u rest hdrop
    rw [probeList_characterization live (get_candidate_urls username repo), hdrop]
  · intro hdrop
    rw [probeList_characterization live (get_candidate_urls username repo), hdrop]

/-- Witness for C8: the first candidate of repoC8 is live, so the probe
returns it having queried only that one URL. -/
theorem c8_probe_short_circuit_witness :
    probeList liveC8 (get_candidate_urls "Mathew-Harvey" repoC8) =
      ((true, "https://mathew-harvey.github.io/demo/"),
       ["https://mathew-harvey.github.io/demo/"]) :=
  (c8_probe_short_circuit liveC8 "Mathew-Harvey" repoC8).2.1
    "https://mathew-harvey.github.io/demo/"
    ["https://mathew-harvey.github.io/demo",
     "https://mh-demo.onrender.com", "https://demo.onrender.com"] (by decide)

/-! ## Claim C9 — declared-language deduplication (code bug) -/

/-- C9 exhibit: declared language Python with a Python file present yields
the tag list Python, Python — the declared language is inserted although it
is already represented (the second conjunct shows the tags do contain it up
to case).  The membership test of the source compares the capitalized
language against lower-cased tags and therefore never fires. -/
theorem c9_language_dup_exhibit :
    (classify_repo_from_api repoC9 treeC9).tech_stack = ["Python", "Python"] ∧
    (["Python"].map toLowerStr).contains (capitalize "python") = false ∧
    (["Python"].map toLowerStr).contains (toLowerStr (capitalize "python")) = true := by
  refine ⟨by decide, by decide, by decide⟩

/-! ## Claim C4 — skip checks versus the ledger short circuit -/

/-- C4 counterexample: the deny-listed repository .github is recorded as
deployed in the ledger with skip-existing enabled; process_repo returns the
cached deployed record, not a skipped one, refuting the claimed
skip-checks-first evaluation order. -/
theorem c4_order_counterexample :
    (process_repo envBase repoC4 mC4).1.status = "deployed" ∧
    (process_repo envBase repoC4 mC4).1.status ≠ "skipped" := by
  constructor <;> decide

/-- C4 amended: the ledger short circuit is evaluated first — when
skip-existing is enabled and the ledger records the repository as deployed
or already-live, process_repo returns that cached record unchanged even if
the repository is deny-listed, a fork, archived or empty; only otherwise do
the explicit skip checks run, before the liveness probe and any
classification work, producing the skipped record with the first matching
reason. -/
theorem c4_order_amended (env : Env) (repo : Repo) (manifest : List (String × Project)) :
    (∀ p, cachedRecord env repo manifest = some p →
      process_repo env repo manifest = (p, [])) ∧
    (cachedRecord env repo manifest = none → (should_skip_repo repo).1 = true →
      process_repo env repo manifest =
        ({ baseProject repo with
            status := "skipped", skip_reason := (should_skip_repo repo).2 }, [])) := by
  constructor
  · intro p hp
    simp [process_repo, hp]
  · intro hc hs
    simp [process_repo, hc, process_repo_fresh, hs]

/-- Witness for C4 at the concrete deny-listed deployed repository. -/
theorem c4_order_amended_witness :
    process_repo envBase repoC4 mC4 = (recC4, []) :=
  (c4_order_amended envBase repoC4 mC4).1 recC4 (by decide)

/-! ## Claim C6 — the record invariant of every written record -/

theorem should_skip_reason (repo : Repo) (h : (should_skip_repo repo).1 = true) :
    (should_skip_repo repo).2 ≠ "" := by
  unfold should_skip_repo at h ⊢
  split_ifs at h ⊢ <;> decide

theorem pushDeploy_inv (env : Env) (p1 : Project) (trace : List String) :
    RecordInv (pushDeploy env p1 trace).1 := by
  simp only [pushDeploy]
  by_cases hd : pyTruthy (deploy_with_retry env.deployRes env.agentOk 2).1 = true
  · rw [if_pos hd]
    exact ⟨fun _ => pyTruthy_getD hd,
           fun hst => by simp at hst,
           fun hst => by simp at hst⟩
  · rw [if_neg hd]
    exact ⟨fun hst => by rcases hst with h | h <;> simp at h,
           fun hst => by simp at hst,
           fun hst => by simp at hst⟩

theorem afterClone_inv (env : Env) (p1 : Project) (tier : Nat) :
    RecordInv (afterClone env p1 tier).1 := by
  simp only [afterClone]
  by_cases h0 : (tier == 0) = true
  · rw [if_pos h0]; exact pushDeploy_inv env p1 _
  · rw [if_neg h0]
    by_cases hc : env.completion_ok = true
    · rw [if_pos hc]; exact pushDeploy_inv env p1 _
    · rw [if_neg hc]
      exact ⟨fun hst => by rcases hst with h | h <;> simp at h,
             fun hst => by simp at hst,
             fun _ => by simp⟩

/-- C6: assuming the consulted ledger already satisfies the record
invariant, the record process_repo returns (and which the caller writes to
the manifest) satisfies it too: deployed or already-live implies a nonempty
deploy URL, skipped implies a nonempty skip reason, failed implies a
nonempty error. -/
theorem c6_record_invariant (env : Env) (repo : Repo) (manifest : List (String × Project))
    (hm : ∀ n p, (n, p) ∈ manifest → RecordInv p) :
    RecordInv (process_repo env repo manifest).1 := by
  rcases hcc : cachedRecord env repo manifest with _ | q
  · have hpr : process_repo env repo manifest = process_repo_fresh env repo := by
      simp [process_repo, hcc]
    rw [hpr]
    simp only [process_repo_fresh]
    by_cases hskip : (should_skip_repo repo).1 = true
    · rw [if_pos hskip]
      exact ⟨fun hst => by rcases hst with h | h <;> simp at h,
             fun _ => should_skip_reason repo hskip,
             fun hst => by simp at hst⟩
    · rw [if_neg hskip]
      by_cases hlive : (probeList env.live (get_candidate_urls env.username repo)).1.1 = true
      · rw [if_pos hlive]
        exact ⟨fun _ => get_candidate_urls_ne_empty env.username repo _
                 (probeList_true_mem env.live _ hlive),
               fun hst => by simp at hst,
               fun hst => by simp at hst⟩
      · rw [if_neg hlive]
        by_cases hfc : decide ((classify_repo_from_api repo env.tree).file_count ≤ 1) = true
        · rw [if_pos hfc]
          exact ⟨fun hst => by rcases hst with h | h <;> simp at h,
                 fun _ => by simp,
                 fun hst => by simp at hst⟩
        · rw [if_neg hfc]
          by_cases hdr : env.dry_run = true
          · rw [if_pos hdr]
            exact ⟨fun hst => by rcases hst with h | h <;> simp at h,
                   fun hst => by simp at hst,
                   fun hst => by simp at hst⟩
          · rw [if_neg hdr]
            by_cases hcl : env.clone_ok = true
            · rw [if_pos hcl]
              exact afterClone_inv env _ _
            · rw [if_neg hcl]
              exact ⟨fun hst => by rcases hst with h | h <;> simp at h,
                     fun hst => by simp at hst,
                     fun _ => str_append_ne _ _ (by decide)⟩
  · have hq : RecordInv q := by
      obtain ⟨n, hn⟩ := cachedRecord_mem env repo manifest q hcc
      exact hm n q hn
    have heq : process_repo env repo manifest = (q, []) := by
      simp [process_repo, hcc]
    rw [heq]
    exact hq

/-- Witness for C6 at a fork repository against an empty ledger. -/
theorem c6_record_invariant_witness :
    RecordInv (process_repo envBase repoC6 []).1 :=
  c6_record_invariant envBase repoC6 [] (by intro n p h; cases h)

/-! ## Claim C10 — tree-fetch failure funnels into the empty-repo skip -/

/-- C10: when nothing final is cached, the explicit skip checks pass, no
candidate URL is live and the tree fetch failed, the classifier sees zero
files and process_repo returns skipped with the empty-repo reason,
performing no clone, completion, push or deploy phase (the phase trace is
empty). -/
theorem c10_tree_failure_skip (env : Env) (repo : Repo) (manifest : List (String × Project))
    (hc : cachedRecord env repo manifest = none)
    (hs : (should_skip_repo repo).1 = false)
    (hl : (probeList env.live (get_candidate_urls env.username repo)).1.1 = false)
    (ht : env.tree = none) :
    (classify_repo_from_api repo env.tree).file_count = 0 ∧
    (process_repo env repo manifest).1.status = "skipped" ∧
    (process_repo env repo manifest).1.skip_reason = "Empty or README-only repo" ∧
    (process_repo env repo manifest).2 = [] := by
  have hfc : (classify_repo_from_api repo env.tree).file_count = 0 := by
    rw [ht]; rfl
  refine ⟨hfc, ?_, ?_, ?_⟩ <;>
    simp [process_repo, hc, process_repo_fresh, hs, hl, hfc]

/-- Witness for C10 at a concrete repository with a failed tree fetch. -/
theorem c10_tree_failure_skip_witness :
    (process_repo envBase repoC10 []).1.status = "skipped" ∧
    (process_repo envBase repoC10 []).1.skip_reason = "Empty or README-only repo" :=
  ⟨(c10_tree_failure_skip envBase repoC10 [] (by decide) (by decide) (by decide) rfl).2.1,
   (c10_tree_failure_skip envBase repoC10 [] (by decide) (by decide) (by decide) rfl).2.2.1⟩

end Orch
